import Mathlib

set_option autoImplicit false

/-!
Shallow embedding of the host/guest bridge in `protoc.go` of
aperturerobotics/go-protoc-wasi.

The sandbox execution engine (wazero) is modelled abstractly: a guest is a
bundle of state-passing functions over an opaque state type `sigma`, one per
exported entry point the host consumes (`malloc`, `free`, `protoc_init`,
`protoc_run`, `protoc_destroy`), plus linear-memory read/write primitives and
the engine-level instance release (`Module.Close`).  Host-visible values that
Go holds as `uint32` are modelled as `Nat` reduced mod 2^32 where the source
truncates.  Strings and byte slices are `List Nat` (byte lists).

The host state `HState` carries, besides the guest state and the
`initialized` flag of the Go struct (field `inited` here), ghost
instrumentation used only to state properties: the net outstanding-allocation
count, the ordered log of pointers passed to the guest `free` export, the log
of pointer/length slot writes performed by the `writePtr`/`writeUint32`
helpers, the number of `protoc_destroy` invocations, and a counter of all
guest entry-point invocations.
-/

/-- Truncation to a 32-bit word, as Go's uint32 conversion. -/
def u32 (v : Nat) : Nat := v % 4294967296

/-- Go's int32 reinterpretation of a 32-bit word, as in int(int32(x)). -/
def asInt32 (v : Nat) : Int :=
  let m := v % 4294967296
  if m < 2147483648 then (m : Int) else (m : Int) - 4294967296

/-- Little-endian encoding of a 32-bit value, as binary.LittleEndian.PutUint32. -/
def le32 (v : Nat) : List Nat :=
  [v % 256, v / 256 % 256, v / 65536 % 256, v / 16777216 % 256]

/-- Abstract sandbox instance: the wazero module's exported functions and
memory primitives, as state-passing functions over an opaque guest state.
`none` results model a trapped/faulted call (Go's non-nil error from
`api.Function.Call`); the `Bool` in `free`, `destroyCall` and `modClose`
models whether the call returned a nil error. `memRead` is pure. -/
structure Guest (sigma : Type) where
  malloc : sigma → Nat → sigma × Option Nat
  free : sigma → Nat → sigma × Bool
  memWrite : sigma → Nat → List Nat → sigma × Bool
  memRead : sigma → Nat → Nat → Option (List Nat)
  initCall : sigma → sigma × Option Nat
  runCall : sigma → Nat → Nat → sigma × Option Nat
  destroyCall : sigma → sigma × Bool
  modClose : sigma → sigma × Bool

/-- Host-side state: guest state, the Protoc struct's initialized flag
(`inited`), and ghost instrumentation for stating allocation/call
properties. -/
structure HState (sigma : Type) where
  guest : sigma
  inited : Bool
  allocCount : Int
  guestCalls : Nat
  frees : List Nat
  slotWrites : List (Nat × Nat)
  destroyCount : Nat

/-- Error taxonomy of the bridge (Go uses error strings; the spec names
them). `mallocTrap` is a trapped guest allocator call, `allocFailed` the
"malloc returned null" error, `writeFailed` the "failed to write to memory"
error, `allocFailedArgv` the "malloc returned null for argv" error. -/
inductive PErr where
  | mallocTrap
  | allocFailed
  | writeFailed
  | allocFailedArgv
  | notInited
  | initTrap
  | initFailed
  | runFailed
  | closeFailed
deriving DecidableEq, Repr

/-- Invoke the guest allocator export (`p.malloc.Call`), truncating the
result to uint32 as the source does; ghost: bumps the guest-call counter and,
when a non-null pointer is produced, the outstanding-allocation count. -/
def callMalloc {sigma : Type} (g : Guest sigma) (st : HState sigma) (size : Nat) :
    HState sigma × Option Nat :=
  match g.malloc st.guest size with
  | (s1, none) => ({ st with guest := s1, guestCalls := st.guestCalls + 1 }, none)
  | (s1, some v) =>
      ({ st with
          guest := s1
          guestCalls := st.guestCalls + 1
          allocCount := st.allocCount + (if u32 v = 0 then 0 else 1) }, some (u32 v))

/-- Invoke the guest deallocator export (`p.free.Call`); the source discards
the call's results, which the wrapper mirrors by dropping the Bool; ghost:
bumps guest calls, decrements outstanding allocations, logs the pointer. -/
def callFree {sigma : Type} (g : Guest sigma) (st : HState sigma) (ptr : Nat) :
    HState sigma :=
  { st with
      guest := (g.free st.guest ptr).1
      guestCalls := st.guestCalls + 1
      allocCount := st.allocCount - 1
      frees := st.frees ++ [ptr] }

/-- Linear-memory write (`p.mod.Memory().Write`). -/
def callMemWrite {sigma : Type} (g : Guest sigma) (st : HState sigma)
    (addr : Nat) (data : List Nat) : HState sigma × Bool :=
  ({ st with
      guest := (g.memWrite st.guest addr data).1
      guestCalls := st.guestCalls + 1 }, (g.memWrite st.guest addr data).2)

/-- Invoke the guest init export (`p.protocInit.Call`). -/
def callInit {sigma : Type} (g : Guest sigma) (st : HState sigma) :
    HState sigma × Option Nat :=
  ({ st with
      guest := (g.initCall st.guest).1
      guestCalls := st.guestCalls + 1 }, (g.initCall st.guest).2)

/-- Invoke the guest run export (`p.protocRun.Call(ctx, argc, argvPtr)`). -/
def callRun {sigma : Type} (g : Guest sigma) (st : HState sigma)
    (argc argvPtr : Nat) : HState sigma × Option Nat :=
  ({ st with
      guest := (g.runCall st.guest argc argvPtr).1
      guestCalls := st.guestCalls + 1 }, (g.runCall st.guest argc argvPtr).2)

/-- Invoke the guest destroy export (`p.protocDestroy.Call`); the source
discards the results, mirrored by dropping the Bool; ghost: bumps the
destroy counter. -/
def callDestroy {sigma : Type} (g : Guest sigma) (st : HState sigma) :
    HState sigma :=
  { st with
      guest := (g.destroyCall st.guest).1
      guestCalls := st.guestCalls + 1
      destroyCount := st.destroyCount + 1 }

/-- Protoc.allocBytes: malloc, null-check, write; on a rejected write the
just-allocated block is freed before surfacing the error. -/
def allocBytes {sigma : Type} (g : Guest sigma) (st : HState sigma)
    (data : List Nat) : HState sigma × Except PErr Nat :=
  match callMalloc g st data.length with
  | (st1, none) => (st1, Except.error PErr.mallocTrap)
  | (st1, some ptr) =>
      if ptr = 0 then (st1, Except.error PErr.allocFailed)
      else
        match callMemWrite g st1 ptr data with
        | (st2, true) => (st2, Except.ok ptr)
        | (st2, false) => (callFree g st2 ptr, Except.error PErr.writeFailed)

/-- Protoc.allocString: appends a terminating zero byte, then allocBytes. -/
def allocString {sigma : Type} (g : Guest sigma) (st : HState sigma)
    (s : List Nat) : HState sigma × Except PErr Nat :=
  allocBytes g st (s ++ [0])

/-- The write loop of Protoc.allocArgv: writes each 32-bit pointer value
little-endian at argvPtr + i*4 (uint32 address arithmetic), DISCARDING the
success flag of each memory write, as the source does. -/
def writeArgvLoop {sigma : Type} (g : Guest sigma) (argvPtr : Nat) :
    HState sigma → List Nat → Nat → HState sigma
  | st, [], _ => st
  | st, ptr :: rest, i =>
      writeArgvLoop g argvPtr (callMemWrite g st (u32 (argvPtr + i * 4)) (le32 ptr)).1
        rest (i + 1)

/-- Protoc.allocArgv: allocates 4 * len(ptrs) bytes and writes the pointer
values; write failures are not checked. -/
def allocArgv {sigma : Type} (g : Guest sigma) (st : HState sigma)
    (ptrs : List Nat) : HState sigma × Except PErr Nat :=
  match callMalloc g st (ptrs.length * 4) with
  | (st1, none) => (st1, Except.error PErr.mallocTrap)
  | (st1, some argvPtr) =>
      if argvPtr = 0 then (st1, Except.error PErr.allocFailedArgv)
      else (writeArgvLoop g argvPtr st1 ptrs 0, Except.ok argvPtr)

/-- Protoc.freePtr: invokes the guest free export unless the pointer is the
zero sentinel. -/
def freePtr {sigma : Type} (g : Guest sigma) (st : HState sigma) (ptr : Nat) :
    HState sigma :=
  if ptr = 0 then st else callFree g st ptr

/-- The `for _, ptr := range argPtrs` free loops of Protoc.Run. -/
def freeAll {sigma : Type} (g : Guest sigma) : HState sigma → List Nat → HState sigma
  | st, [] => st
  | st, p :: ps => freeAll g (freePtr g st p) ps

/-- Protoc.writePtr: little-endian 32-bit store of a pointer value into a
guest-supplied slot, the memory-write success flag discarded; ghost: logs the
(address, value) pair. -/
def writePtr {sigma : Type} (g : Guest sigma) (st : HState sigma)
    (addr value : Nat) : HState sigma :=
  { (callMemWrite g st addr (le32 value)).1 with
      slotWrites := st.slotWrites ++ [(addr, u32 value)] }

/-- Protoc.writeUint32: identical body to writePtr in the source. -/
def writeUint32 {sigma : Type} (g : Guest sigma) (st : HState sigma)
    (addr value : Nat) : HState sigma :=
  { (callMemWrite g st addr (le32 value)).1 with
      slotWrites := st.slotWrites ++ [(addr, u32 value)] }

/-- Protoc.Init: idempotent guard on the initialized flag, then the guest
init export; non-zero int32 status is surfaced as an error. -/
def Init {sigma : Type} (g : Guest sigma) (st : HState sigma) :
    HState sigma × Option PErr :=
  if st.inited then (st, none)
  else
    match callInit g st with
    | (st1, none) => (st1, some PErr.initTrap)
    | (st1, some v) =>
        if asInt32 v ≠ 0 then (st1, some PErr.initFailed)
        else ({ st1 with inited := true }, none)

/-- The argument-string allocation loop of Protoc.Run: on a failure at index
i, frees the pointers already allocated (indices 0..i-1, in order) and
returns the error. `acc` holds the pointers allocated so far, reversed. -/
def allocArgsLoop {sigma : Type} (g : Guest sigma) :
    HState sigma → List (List Nat) → List Nat → HState sigma × Except PErr (List Nat)
  | st, [], acc => (st, Except.ok acc.reverse)
  | st, a :: rest, acc =>
      match allocString g st a with
      | (st1, Except.ok ptr) => allocArgsLoop g st1 rest (ptr :: acc)
      | (st1, Except.error e) => (freeAll g st1 acc.reverse, Except.error e)

/-- The default argv substituted when args is empty: ["protoc"]. -/
def defaultArgs : List (List Nat) := [[112, 114, 111, 116, 111, 99]]

/-- Protoc.Run: guards on the initialized flag, substitutes the default argv
when empty, allocates each argument string then the argv array (unwinding on
failure), invokes the guest run export, frees the argv array and every
argument string regardless of the call's outcome, and returns the guest's
int32 status (with Go's accompanying int result: 1 on every error path). -/
def Run {sigma : Type} (g : Guest sigma) (st : HState sigma)
    (args : List (List Nat)) : HState sigma × Int × Option PErr :=
  if st.inited = false then (st, (1, some PErr.notInited))
  else
    let args1 := if args.isEmpty then defaultArgs else args
    match allocArgsLoop g st args1 [] with
    | (st1, Except.error e) => (st1, (1, some e))
    | (st1, Except.ok argPtrs) =>
        match allocArgv g st1 argPtrs with
        | (st2, Except.error e) => (freeAll g st2 argPtrs, (1, some e))
        | (st2, Except.ok argvPtr) =>
            let st3 := (callRun g st2 args1.length argvPtr).1
            let st4 := freePtr g st3 argvPtr
            let st5 := freeAll g st4 argPtrs
            match (callRun g st2 args1.length argvPtr).2 with
            | none => (st5, (1, some PErr.runFailed))
            | some v => (st5, (asInt32 v, none))

/-- Protoc.Close: if initialized, invokes the guest destroy export (its
results discarded) and clears the flag; then releases the module instance,
returning the engine's close error. -/
def Close {sigma : Type} (g : Guest sigma) (st : HState sigma) :
    HState sigma × Option PErr :=
  let st1 := if st.inited then { callDestroy g st with inited := false } else st
  ({ st1 with guest := (g.modClose st1.guest).1 },
    if (g.modClose st1.guest).2 then none else some PErr.closeFailed)

/-- The pluggable subprocess-communication strategy (PluginHandler):
program name bytes, search-path flag, input bytes, returning output bytes or
an error-message byte string. -/
structure Handler where
  communicate : List Nat → Bool → List Nat → Except (List Nat) (List Nat)

/-- Protoc.hostPluginCommunicate: decodes guest pointers, reads program name
and input from guest memory (failing with -1 before invoking any helper),
invokes the strategy, and writes results/errors back into the guest-supplied
slots; returns the 32-bit status word. -/
def hostPluginCommunicate {sigma : Type} (g : Guest sigma) (ph : Handler)
    (st : HState sigma)
    (programPtr programLen searchPath inputPtr inputLen
      outputPtrPtr outputLenPtr errorPtrPtr errorLenPtr : Nat) :
    HState sigma × Int :=
  match g.memRead st.guest programPtr programLen with
  | none => (st, -1)
  | some programBytes =>
      match g.memRead st.guest inputPtr inputLen with
      | none => (st, -1)
      | some inputData =>
          match ph.communicate programBytes (asInt32 searchPath ≠ 0) inputData with
          | Except.error errMsg =>
              match allocBytes g st errMsg with
              | (st1, Except.ok errPtr) =>
                  let st2 := writePtr g st1 errorPtrPtr errPtr
                  let st3 := writeUint32 g st2 errorLenPtr errMsg.length
                  let st4 := writePtr g st3 outputPtrPtr 0
                  let st5 := writeUint32 g st4 outputLenPtr 0
                  (st5, 1)
              | (st1, Except.error _) =>
                  let st3 := writePtr g st1 outputPtrPtr 0
                  let st4 := writeUint32 g st3 outputLenPtr 0
                  (st4, 1)
          | Except.ok output =>
              match allocBytes g st output with
              | (st1, Except.error _) => (st1, -1)
              | (st1, Except.ok outPtr) =>
                  let st2 := writePtr g st1 outputPtrPtr outPtr
                  let st3 := writeUint32 g st2 outputLenPtr output.length
                  let st4 := writePtr g st3 errorPtrPtr 0
                  let st5 := writeUint32 g st4 errorLenPtr 0
                  (st5, 0)

/-- A child-process command as built by exec.CommandContext(ctx, program)
with no extra arguments. -/
structure Command where
  program : List Nat
deriving DecidableEq, Repr

/-- The command construction of DefaultPluginHandler.Communicate: both
branches of the searchPath conditional build the identical command. -/
def mkCommand (program : List Nat) (searchPath : Bool) : Command :=
  if searchPath then Command.mk program else Command.mk program

/-- Abstract os/exec environment: running a command with given stdin yields
an optional error message plus captured stdout and stderr contents. -/
structure ExecEnv where
  runCmd : Command → List Nat → Option (List Nat) × List Nat × List Nat

/-- ": " separator used by the fmt.Errorf formats in the source. -/
def colonSep : List Nat := [58, 32]

/-- DefaultPluginHandler.Communicate: builds the command, runs it with the
input on stdin; on error, formats "program: err: stderr" when stderr is
non-empty, else "program: err"; on success returns the captured stdout. -/
def defaultCommunicate (e : ExecEnv) (program : List Nat) (searchPath : Bool)
    (input : List Nat) : Except (List Nat) (List Nat) :=
  let cmd := mkCommand program searchPath
  match e.runCmd cmd input with
  | (some errMsg, _, stderrBytes) =>
      if stderrBytes.length > 0 then
        Except.error (program ++ colonSep ++ errMsg ++ colonSep ++ stderrBytes)
      else Except.error (program ++ colonSep ++ errMsg)
  | (none, stdoutBytes, _) => Except.ok stdoutBytes

/-! ### Ghost-state accounting lemmas -/

theorem callMalloc_some {sigma : Type} {g : Guest sigma} {st st1 : HState sigma}
    {n p : Nat} (h : callMalloc g st n = (st1, some p)) :
    st1.allocCount = st.allocCount + (if p = 0 then 0 else 1) ∧
      st1.inited = st.inited ∧ st1.frees = st.frees ∧
      st1.slotWrites = st.slotWrites ∧ st1.destroyCount = st.destroyCount := by
  unfold callMalloc at h
  split at h
  · simp at h
  · simp only [Prod.mk.injEq, Option.some.injEq] at h
    obtain ⟨rfl, rfl⟩ := h
    simp

theorem callMalloc_none {sigma : Type} {g : Guest sigma} {st st1 : HState sigma}
    {n : Nat} (h : callMalloc g st n = (st1, none)) :
    st1.allocCount = st.allocCount ∧ st1.inited = st.inited ∧ st1.frees = st.frees ∧
      st1.slotWrites = st.slotWrites ∧ st1.destroyCount = st.destroyCount := by
  unfold callMalloc at h
  split at h
  · simp only [Prod.mk.injEq] at h
    obtain ⟨rfl, -⟩ := h
    simp
  · simp at h

theorem callFree_fields {sigma : Type} (g : Guest sigma) (st : HState sigma) (p : Nat) :
    (callFree g st p).allocCount = st.allocCount - 1 ∧
      (callFree g st p).inited = st.inited ∧
      (callFree g st p).frees = st.frees ++ [p] ∧
      (callFree g st p).slotWrites = st.slotWrites ∧
      (callFree g st p).destroyCount = st.destroyCount := by
  simp [callFree]

theorem callMemWrite_fields {sigma : Type} (g : Guest sigma) (st : HState sigma)
    (a : Nat) (d : List Nat) :
    ((callMemWrite g st a d).1).allocCount = st.allocCount ∧
      ((callMemWrite g st a d).1).inited = st.inited ∧
      ((callMemWrite g st a d).1).frees = st.frees ∧
      ((callMemWrite g st a d).1).slotWrites = st.slotWrites ∧
      ((callMemWrite g st a d).1).destroyCount = st.destroyCount := by
  simp [callMemWrite]

theorem allocBytes_ok {sigma : Type} {g : Guest sigma} {st st1 : HState sigma}
    {data : List Nat} {p : Nat} (h : allocBytes g st data = (st1, Except.ok p)) :
    st1.allocCount = st.allocCount + 1 ∧ p ≠ 0 ∧ st1.inited = st.inited ∧
      st1.slotWrites = st.slotWrites := by
  unfold allocBytes at h
  split at h
  · simp at h
  · rename_i st' ptr hM
    split at h
    · simp at h
    · rename_i hz
      split at h
      · rename_i st2 hW
        simp only [Prod.mk.injEq, Except.ok.injEq] at h
        obtain ⟨rfl, rfl⟩ := h
        obtain ⟨hc, hi, -, hs, -⟩ := callMalloc_some hM
        have hw := callMemWrite_fields g st' ptr data
        rw [hW] at hw
        refine ⟨?_, hz, ?_, ?_⟩
        · rw [hw.1, hc, if_neg hz]
        · rw [hw.2.1, hi]
        · rw [hw.2.2.2.1, hs]
      · simp at h

theorem allocBytes_err {sigma : Type} {g : Guest sigma} {st st1 : HState sigma}
    {data : List Nat} {e : PErr} (h : allocBytes g st data = (st1, Except.error e)) :
    st1.allocCount = st.allocCount ∧ st1.inited = st.inited ∧
      st1.slotWrites = st.slotWrites := by
  unfold allocBytes at h
  split at h
  · rename_i st' hM
    simp only [Prod.mk.injEq] at h
    obtain ⟨rfl, -⟩ := h
    obtain ⟨hc, hi, -, hs, -⟩ := callMalloc_none hM
    exact ⟨hc, hi, hs⟩
  · rename_i st' ptr hM
    split at h
    · rename_i hz
      simp only [Prod.mk.injEq] at h
      obtain ⟨rfl, -⟩ := h
      obtain ⟨hc, hi, -, hs, -⟩ := callMalloc_some hM
      subst hz
      exact ⟨by rw [hc]; simp, hi, hs⟩
    · rename_i hz
      split at h
      · simp at h
      · rename_i st2 hW
        simp only [Prod.mk.injEq] at h
        obtain ⟨rfl, -⟩ := h
        obtain ⟨hc, hi, -, hs, -⟩ := callMalloc_some hM
        have hw := callMemWrite_fields g st' ptr data
        rw [hW] at hw
        have hf := callFree_fields g st2 ptr
        refine ⟨?_, ?_, ?_⟩
        · rw [hf.1, hw.1, hc, if_neg hz]; omega
        · rw [hf.2.1, hw.2.1, hi]
        · rw [hf.2.2.2.1, hw.2.2.2.1, hs]

theorem writeArgvLoop_fields {sigma : Type} (g : Guest sigma) (argvPtr : Nat) :
    ∀ (ps : List Nat) (st : HState sigma) (i : Nat),
      (writeArgvLoop g argvPtr st ps i).allocCount = st.allocCount ∧
        (writeArgvLoop g argvPtr st ps i).inited = st.inited ∧
        (writeArgvLoop g argvPtr st ps i).frees = st.frees ∧
        (writeArgvLoop g argvPtr st ps i).slotWrites = st.slotWrites ∧
        (writeArgvLoop g argvPtr st ps i).destroyCount = st.destroyCount
  | [], st, i => by simp [writeArgvLoop]
  | p :: rest, st, i => by
      have ih := writeArgvLoop_fields g argvPtr rest
        (callMemWrite g st (u32 (argvPtr + i * 4)) (le32 p)).1 (i + 1)
      have hw := callMemWrite_fields g st (u32 (argvPtr + i * 4)) (le32 p)
      simp only [writeArgvLoop]
      exact ⟨ih.1.trans hw.1, (ih.2.1).trans hw.2.1, (ih.2.2.1).trans hw.2.2.1,
        (ih.2.2.2.1).trans hw.2.2.2.1, (ih.2.2.2.2).trans hw.2.2.2.2⟩

theorem allocArgv_ok {sigma : Type} {g : Guest sigma} {st st1 : HState sigma}
    {ptrs : List Nat} {p : Nat} (h : allocArgv g st ptrs = (st1, Except.ok p)) :
    st1.allocCount = st.allocCount + 1 ∧ p ≠ 0 ∧ st1.inited = st.inited ∧
      st1.slotWrites = st.slotWrites := by
  unfold allocArgv at h
  split at h
  · simp at h
  · rename_i st' ptr hM
    split at h
    · simp at h
    · rename_i hz
      simp only [Prod.mk.injEq, Except.ok.injEq] at h
      obtain ⟨rfl, rfl⟩ := h
      obtain ⟨hc, hi, -, hs, -⟩ := callMalloc_some hM
      have hw := writeArgvLoop_fields g ptr ptrs st' 0
      refine ⟨?_, hz, ?_, ?_⟩
      · rw [hw.1, hc, if_neg hz]
      · rw [hw.2.1, hi]
      · rw [hw.2.2.2.1, hs]

theorem allocArgv_err {sigma : Type} {g : Guest sigma} {st st1 : HState sigma}
    {ptrs : List Nat} {e : PErr} (h : allocArgv g st ptrs = (st1, Except.error e)) :
    st1.allocCount = st.allocCount ∧ st1.inited = st.inited ∧
      st1.slotWrites = st.slotWrites := by
  unfold allocArgv at h
  split at h
  · rename_i st' hM
    simp only [Prod.mk.injEq] at h
    obtain ⟨rfl, -⟩ := h
    obtain ⟨hc, hi, -, hs, -⟩ := callMalloc_none hM
    exact ⟨hc, hi, hs⟩
  · rename_i st' ptr hM
    split at h
    · rename_i hz
      simp only [Prod.mk.injEq] at h
      obtain ⟨rfl, -⟩ := h
      obtain ⟨hc, hi, -, hs, -⟩ := callMalloc_some hM
      subst hz
      exact ⟨by rw [hc]; simp, hi, hs⟩
    · simp at h

theorem freePtr_fields {sigma : Type} (g : Guest sigma) (st : HState sigma)
    {p : Nat} (hp : p ≠ 0) :
    (freePtr g st p).allocCount = st.allocCount - 1 ∧
      (freePtr g st p).inited = st.inited ∧
      (freePtr g st p).slotWrites = st.slotWrites := by
  simp [freePtr, hp, callFree]

theorem freeAll_fields {sigma : Type} (g : Guest sigma) :
    ∀ (ps : List Nat) (st : HState sigma), (∀ p ∈ ps, p ≠ 0) →
      (freeAll g st ps).allocCount = st.allocCount - ps.length ∧
        (freeAll g st ps).inited = st.inited ∧
        (freeAll g st ps).slotWrites = st.slotWrites
  | [], st, _ => by simp [freeAll]
  | p :: rest, st, hnz => by
      have hp : p ≠ 0 := hnz p (by simp)
      have ih := freeAll_fields g rest (freePtr g st p)
        (fun q hq => hnz q (by simp [hq]))
      have hf := freePtr_fields g st hp
      simp only [freeAll]
      refine ⟨?_, (ih.2.1).trans hf.2.1, (ih.2.2).trans hf.2.2⟩
      rw [ih.1, hf.1]
      simp
      omega

theorem callRun_fields {sigma : Type} (g : Guest sigma) (st : HState sigma)
    (argc argvPtr : Nat) :
    ((callRun g st argc argvPtr).1).allocCount = st.allocCount ∧
      ((callRun g st argc argvPtr).1).inited = st.inited ∧
      ((callRun g st argc argvPtr).1).slotWrites = st.slotWrites := by
  simp [callRun]

theorem allocArgsLoop_ok {sigma : Type} (g : Guest sigma) :
    ∀ (args : List (List Nat)) (st : HState sigma) (acc : List Nat)
      (st1 : HState sigma) (ps : List Nat),
      (∀ p ∈ acc, p ≠ 0) →
      allocArgsLoop g st args acc = (st1, Except.ok ps) →
      st1.allocCount = st.allocCount + args.length ∧
        ps.length = acc.length + args.length ∧ (∀ p ∈ ps, p ≠ 0) ∧
        st1.inited = st.inited
  | [], st, acc, st1, ps, hacc, h => by
      simp only [allocArgsLoop, Prod.mk.injEq, Except.ok.injEq] at h
      obtain ⟨rfl, rfl⟩ := h
      refine ⟨by simp, by simp, ?_, rfl⟩
      intro p hp
      exact hacc p (List.mem_reverse.mp hp)
  | a :: rest, st, acc, st1, ps, hacc, h => by
      simp only [allocArgsLoop] at h
      split at h
      · rename_i stA p hAS
        rw [allocString] at hAS
        obtain ⟨hc, hp, hi, -⟩ := allocBytes_ok hAS
        have hacc2 : ∀ q ∈ p :: acc, q ≠ 0 := by
          intro q hq
          rcases List.mem_cons.mp hq with rfl | hq2
          · exact hp
          · exact hacc q hq2
        obtain ⟨ihc, ihl, ihnz, ihi⟩ :=
          allocArgsLoop_ok g rest stA (p :: acc) st1 ps hacc2 h
        refine ⟨?_, ?_, ihnz, ihi.trans hi⟩
        · rw [ihc, hc]
          simp only [List.length_cons]
          push_cast
          omega
        · simp only [List.length_cons] at ihl ⊢
          omega
      · rename_i stA e hAS
        simp at h

theorem allocArgsLoop_err {sigma : Type} (g : Guest sigma) :
    ∀ (args : List (List Nat)) (st : HState sigma) (acc : List Nat)
      (st1 : HState sigma) (e : PErr),
      (∀ p ∈ acc, p ≠ 0) →
      allocArgsLoop g st args acc = (st1, Except.error e) →
      st1.allocCount = st.allocCount - acc.length ∧ st1.inited = st.inited
  | [], st, acc, st1, e, hacc, h => by
      simp [allocArgsLoop] at h
  | a :: rest, st, acc, st1, e, hacc, h => by
      simp only [allocArgsLoop] at h
      split at h
      · rename_i stA p hAS
        rw [allocString] at hAS
        obtain ⟨hc, hp, hi, -⟩ := allocBytes_ok hAS
        have hacc2 : ∀ q ∈ p :: acc, q ≠ 0 := by
          intro q hq
          rcases List.mem_cons.mp hq with rfl | hq2
          · exact hp
          · exact hacc q hq2
        obtain ⟨ihc, ihi⟩ := allocArgsLoop_err g rest stA (p :: acc) st1 e hacc2 h
        refine ⟨?_, ihi.trans hi⟩
        rw [ihc, hc]
        simp only [List.length_cons]
        omega
      · rename_i stA e2 hAS
        rw [allocString] at hAS
        obtain ⟨hc, hi, -⟩ := allocBytes_err hAS
        simp only [Prod.mk.injEq] at h
        obtain ⟨rfl, -⟩ := h
        have hr : ∀ p ∈ acc.reverse, p ≠ 0 := by
          intro p hp
          exact hacc p (List.mem_reverse.mp hp)
        obtain ⟨hfc, hfi, -⟩ := freeAll_fields g acc.reverse stA hr
        refine ⟨?_, hfi.trans hi⟩
        rw [hfc, hc]
        simp

/-! ### Concrete guests and states used by the witnesses -/

/-- A well-behaved guest: the allocator always returns pointer 8, all memory
writes succeed, reads return replicated bytes, init reports 0, run reports 7. -/
def g0 : Guest Unit where
  malloc := fun _ _ => ((), some 8)
  free := fun _ _ => ((), true)
  memWrite := fun _ _ _ => ((), true)
  memRead := fun _ _ len => some (List.replicate len 65)
  initCall := fun _ => ((), some 0)
  runCall := fun _ _ _ => ((), some 7)
  destroyCall := fun _ => ((), true)
  modClose := fun _ => ((), true)

/-- A guest whose allocator always returns the null pointer. -/
def gNull : Guest Unit where
  malloc := fun _ _ => ((), some 0)
  free := fun _ _ => ((), true)
  memWrite := fun _ _ _ => ((), true)
  memRead := fun _ _ len => some (List.replicate len 66)
  initCall := fun _ => ((), some 0)
  runCall := fun _ _ _ => ((), some 0)
  destroyCall := fun _ => ((), true)
  modClose := fun _ => ((), true)

/-- A guest that rejects every memory write (allocator returns pointer 8). -/
def gWF : Guest Unit where
  malloc := fun _ _ => ((), some 8)
  free := fun _ _ => ((), true)
  memWrite := fun _ _ _ => ((), false)
  memRead := fun _ _ len => some (List.replicate len 67)
  initCall := fun _ => ((), some 0)
  runCall := fun _ _ _ => ((), some 0)
  destroyCall := fun _ => ((), true)
  modClose := fun _ => ((), true)

/-- A guest that rejects exactly the 4-byte writes, i.e. the little-endian
pointer stores of the argv build loop, while argument-string writes (which
here have length 3) succeed; the allocator returns pointer 4. -/
def gAW : Guest Unit where
  malloc := fun _ _ => ((), some 4)
  free := fun _ _ => ((), true)
  memWrite := fun _ _ data => ((), !(data.length == 4))
  memRead := fun _ _ len => some (List.replicate len 0)
  initCall := fun _ => ((), some 0)
  runCall := fun _ _ _ => ((), some 0)
  destroyCall := fun _ => ((), true)
  modClose := fun _ => ((), true)

/-- An initialized host state with empty ghost logs. -/
def stI : HState Unit := ⟨(), true, 0, 0, [], [], 0⟩

/-- A never-initialized host state with empty ghost logs. -/
def stU : HState Unit := ⟨(), false, 0, 0, [], [], 0⟩

/-- A strategy that always succeeds with output [1, 2, 3]. -/
def hOk : Handler := ⟨fun _ _ _ => Except.ok [1, 2, 3]⟩

/-- A strategy that always fails with error message [69]. -/
def hErr : Handler := ⟨fun _ _ _ => Except.error [69]⟩

/-! ### Claim theorems -/

/-- C1: for every non-empty argument sequence, a Run call on an initialized
instance frees, before returning, every sandbox allocation it made during the
call, regardless of how the guest run export behaves (the guest `g` is
universally quantified, covering success, non-zero status and trap), so the
outstanding-allocation count after the call equals the count before it. -/
theorem run_no_outstanding_allocations {sigma : Type} (g : Guest sigma)
    (st : HState sigma) (args : List (List Nat))
    (hInit : st.inited = true) (hne : args ≠ []) :
    ((Run g st args).1).allocCount = st.allocCount := by
  unfold Run
  rw [if_neg (by simp [hInit])]
  dsimp only
  split
  · rename_i st1 e hA
    obtain ⟨hc, -⟩ := allocArgsLoop_err g _ st [] st1 e (by simp) hA
    simpa using hc
  · rename_i st1 argPtrs hA
    obtain ⟨hc1, hl, hnz, -⟩ := allocArgsLoop_ok g _ st [] st1 argPtrs (by simp) hA
    split
    · rename_i st2 e hB
      obtain ⟨hc2, -, -⟩ := allocArgv_err hB
      obtain ⟨hc3, -, -⟩ := freeAll_fields g argPtrs st2 hnz
      rw [hc3, hc2, hc1]
      simp only [List.length_nil] at hl
      omega
    · rename_i st2 argvPtr hB
      obtain ⟨hc2, hvnz, -, -⟩ := allocArgv_ok hB
      have hc3 := (callRun_fields g st2
        (if args.isEmpty then defaultArgs else args).length argvPtr).1
      obtain ⟨hc4, -, -⟩ := freePtr_fields g
        (callRun g st2 (if args.isEmpty then defaultArgs else args).length argvPtr).1 hvnz
      obtain ⟨hc5, -, -⟩ := freeAll_fields g argPtrs
        (freePtr g (callRun g st2
          (if args.isEmpty then defaultArgs else args).length argvPtr).1 argvPtr) hnz
      split
      · dsimp only
        rw [hc5, hc4, hc3, hc2, hc1]
        simp only [List.length_nil] at hl
        omega
      · dsimp only
        rw [hc5, hc4, hc3, hc2, hc1]
        simp only [List.length_nil] at hl
        omega

/-- C1 witness: a concrete run on the well-behaved guest leaves the
outstanding-allocation count unchanged. -/
theorem run_no_outstanding_allocations_w :
    ((Run g0 stI [[97]]).1).allocCount = stI.allocCount :=
  run_no_outstanding_allocations g0 stI [[97]] rfl (by decide)

/-- C6: calling Run before any successful Init fails with the
not-initialized error and performs no guest call whatsoever: the returned
state is the input state unchanged, so in particular the guest-call counter
and the outstanding-allocation count are untouched (no guest allocator call
or other guest entry point is invoked). -/
theorem run_before_init {sigma : Type} (g : Guest sigma) (st : HState sigma)
    (args : List (List Nat)) (h : st.inited = false) :
    Run g st args = (st, ((1 : Int), some PErr.notInited)) ∧
      ((Run g st args).1).guestCalls = st.guestCalls ∧
      ((Run g st args).1).allocCount = st.allocCount := by
  have h1 : Run g st args = (st, ((1 : Int), some PErr.notInited)) := by
    unfold Run
    rw [if_pos h]
  exact ⟨h1, by rw [h1], by rw [h1]⟩

/-- C6 witness: concrete never-initialized state. -/
theorem run_before_init_w :
    Run g0 stU [[97]] = (stU, ((1 : Int), some PErr.notInited)) ∧
      ((Run g0 stU [[97]]).1).guestCalls = stU.guestCalls ∧
      ((Run g0 stU [[97]]).1).allocCount = stU.allocCount :=
  run_before_init g0 stU [[97]] rfl

/-- C5: when the pipeline reaches the guest run export (argument strings and
the argv array allocated), the call's outcome is surfaced verbatim: a value
v returned by the export yields exit code int32(v) with no error (non-zero
included), while a trapped/faulted invocation yields the run-failure
error. -/
theorem run_exit_status {sigma : Type} (g : Guest sigma) (st : HState sigma)
    (args : List (List Nat)) (st1 st2 : HState sigma) (argPtrs : List Nat)
    (argvPtr : Nat) (hInit : st.inited = true)
    (hA : allocArgsLoop g st (if args.isEmpty then defaultArgs else args) [] =
      (st1, Except.ok argPtrs))
    (hB : allocArgv g st1 argPtrs = (st2, Except.ok argvPtr)) :
    (Run g st args).2 =
      match (callRun g st2 (if args.isEmpty then defaultArgs else args).length
          argvPtr).2 with
      | some v => (asInt32 v, (none : Option PErr))
      | none => ((1 : Int), some PErr.runFailed) := by
  unfold Run
  rw [if_neg (by simp [hInit])]
  dsimp only
  rw [hA]
  dsimp only
  rw [hB]
  dsimp only
  cases hR : (callRun g st2 (if args.isEmpty then defaultArgs else args).length
      argvPtr).2 with
  | none => rfl
  | some v => rfl

/-- C5 witness: on the well-behaved guest the guest run export reports 7 and
Run returns exit code 7 with no error. -/
theorem run_exit_status_w :
    (Run g0 stI [[97]]).2 = ((7 : Int), (none : Option PErr)) := by
  have h := run_exit_status g0 stI [[97]] ⟨(), true, 1, 2, [], [], 0⟩
    ⟨(), true, 2, 4, [], [], 0⟩ [8] 8 rfl rfl rfl
  exact h.trans rfl

/-- C9: the default subprocess strategy is independent of the search-path
flag: both branches of its conditional construct the identical child-process
command, and Communicate returns the same result for flag true and flag
false on every program, input and execution environment. -/
theorem default_handler_search_flag_irrelevant (e : ExecEnv)
    (program input : List Nat) :
    mkCommand program true = mkCommand program false ∧
      defaultCommunicate e program true input =
        defaultCommunicate e program false input :=
  ⟨rfl, rfl⟩

/-- C7: Init is idempotent: after a successful Init, a second Init returns
success with the state unchanged in every component (hence without invoking
the guest init export: the guest-call counter is part of the state), and the
state is Initialized; a non-zero int32 status from the guest init export is
surfaced as the init failure and leaves the instance not initialized. -/
theorem init_idempotent {sigma : Type} (g : Guest sigma) (st : HState sigma) :
    (∀ st1, Init g st = (st1, none) →
      Init g st1 = (st1, none) ∧ st1.inited = true) ∧
    (∀ s1 v, st.inited = false → g.initCall st.guest = (s1, some v) →
      asInt32 v ≠ 0 →
      (Init g st).2 = some PErr.initFailed ∧ ((Init g st).1).inited = false) := by
  constructor
  · intro st1 h
    by_cases hin : st.inited
    · unfold Init at h
      rw [if_pos hin] at h
      simp only [Prod.mk.injEq] at h
      obtain ⟨rfl, -⟩ := h
      unfold Init
      rw [if_pos hin]
      exact ⟨rfl, hin⟩
    · unfold Init at h
      rw [if_neg hin] at h
      split at h
      · simp at h
      · rename_i stc v hC
        split at h
        · simp at h
        · rename_i hv
          simp only [Prod.mk.injEq] at h
          obtain ⟨rfl, -⟩ := h
          have ht : ({ stc with inited := true } : HState sigma).inited = true := rfl
          refine ⟨?_, ht⟩
          unfold Init
          rw [if_pos ht]
  · intro s1 v hin hC hv
    have hfalse : ¬(st.inited = true) := by simp [hin]
    have hcc : callInit g st =
        ({ st with guest := s1, guestCalls := st.guestCalls + 1 }, some v) := by
      unfold callInit
      rw [hC]
    unfold Init
    rw [if_neg hfalse, hcc]
    dsimp only
    rw [if_pos hv]
    exact ⟨rfl, hin⟩

/-- A guest like g0 except that its init export reports status 1. -/
def gIF : Guest Unit := { g0 with initCall := fun _ => ((), some 1) }

/-- C7 witness: double Init on the well-behaved guest, and a guest whose
init export reports status 1. -/
theorem init_idempotent_w :
    (Init g0 (Init g0 stU).1 = ((Init g0 stU).1, none) ∧
      ((Init g0 stU).1).inited = true) ∧
    ((Init gIF stU).2 = some PErr.initFailed ∧ ((Init gIF stU).1).inited = false) :=
  ⟨(init_idempotent g0 stU).1 (Init g0 stU).1 rfl,
   (init_idempotent gIF stU).2 () 1 rfl rfl (by decide)⟩

/-- C3: allocBytes fails with the allocation error when the guest allocator
returns the zero pointer (leaving the outstanding-allocation count
unchanged), and when the allocator returns a non-zero pointer but the
subsequent memory write is rejected, allocBytes frees exactly the
just-allocated block (the free log gains that pointer) before surfacing the
write error, restoring the outstanding-allocation count. -/
theorem allocBytes_failure_paths {sigma : Type} (g : Guest sigma)
    (st : HState sigma) (data : List Nat) :
    (∀ st1, callMalloc g st data.length = (st1, some 0) →
      allocBytes g st data = (st1, Except.error PErr.allocFailed) ∧
        st1.allocCount = st.allocCount) ∧
    (∀ st1 ptr st2, callMalloc g st data.length = (st1, some ptr) → ptr ≠ 0 →
      callMemWrite g st1 ptr data = (st2, false) →
      allocBytes g st data = (callFree g st2 ptr, Except.error PErr.writeFailed) ∧
        (callFree g st2 ptr).allocCount = st.allocCount ∧
        (callFree g st2 ptr).frees = st.frees ++ [ptr]) := by
  constructor
  · intro st1 hM
    obtain ⟨hc, -, -, -, -⟩ := callMalloc_some hM
    constructor
    · unfold allocBytes
      rw [hM]
      simp
    · rw [hc]
      simp
  · intro st1 ptr st2 hM hptr hW
    obtain ⟨hc, -, hfr, -, -⟩ := callMalloc_some hM
    have hw := callMemWrite_fields g st1 ptr data
    rw [hW] at hw
    have hf := callFree_fields g st2 ptr
    refine ⟨?_, ?_, ?_⟩
    · unfold allocBytes
      rw [hM]
      dsimp only
      rw [if_neg hptr, hW]
    · rw [hf.1, hw.1, hc, if_neg hptr]
      omega
    · rw [hf.2.2.1, hw.2.2.1, hfr]

/-- C3 witness: the null-allocator guest hits the allocation-failed path,
and the write-rejecting guest hits the free-then-surface path. -/
theorem allocBytes_failure_paths_w :
    (allocBytes gNull stI [1] =
        ((callMalloc gNull stI 1).1, Except.error PErr.allocFailed) ∧
      ((callMalloc gNull stI 1).1).allocCount = stI.allocCount) ∧
    (allocBytes gWF stI [1] =
        (callFree gWF (callMemWrite gWF (callMalloc gWF stI 1).1 8 [1]).1 8,
          Except.error PErr.writeFailed) ∧
      (callFree gWF (callMemWrite gWF (callMalloc gWF stI 1).1 8 [1]).1 8).allocCount =
        stI.allocCount ∧
      (callFree gWF (callMemWrite gWF (callMalloc gWF stI 1).1 8 [1]).1 8).frees =
        stI.frees ++ [8]) :=
  ⟨(allocBytes_failure_paths gNull stI [1]).1 (callMalloc gNull stI 1).1 rfl,
   (allocBytes_failure_paths gWF stI [1]).2 (callMalloc gWF stI 1).1 8
     (callMemWrite gWF (callMalloc gWF stI 1).1 8 [1]).1 rfl (by decide) rfl⟩

/-- C4 counterexample: on the guest gAW every 4-byte memory write — in
particular the little-endian pointer store of the argv build loop at address
4 — is rejected, yet Run completes with exit code 0 and no error: the
rejected pointer write during argument setup is silently ignored, it does
not cause the dispatcher to return an error to the caller, contradicting the
claim as stated. -/
theorem argv_write_failure_ignored_cex :
    (gAW.memWrite () (u32 (4 + 0 * 4)) (le32 4)).2 = false ∧
    Run gAW stI [[97, 98]] =
      (⟨(), true, 0, 7, [4, 4], [], 0⟩, ((0 : Int), (none : Option PErr))) := by
  constructor
  · rfl
  · rfl

/-- C4 amended: memory-access failures while allocating and writing the
argument strings do cause the dispatcher to free every partial allocation
already made (the outstanding-allocation count is restored) and to return
the error to the caller; however, a rejected write of a 32-bit pointer value
while building the argv pointer array is silently ignored: allocArgv reports
success whenever the allocator returned a non-zero pointer, regardless of
the outcome of the pointer-value writes. -/
theorem argument_setup_unwind_amended {sigma : Type} (g : Guest sigma)
    (st : HState sigma) (args : List (List Nat)) :
    (∀ st1 e, st.inited = true →
      allocArgsLoop g st (if args.isEmpty then defaultArgs else args) [] =
        (st1, Except.error e) →
      Run g st args = (st1, ((1 : Int), some e)) ∧
        st1.allocCount = st.allocCount) ∧
    (∀ (ptrs : List Nat) st1 p, callMalloc g st (ptrs.length * 4) = (st1, some p) →
      p ≠ 0 → (allocArgv g st ptrs).2 = Except.ok p) := by
  constructor
  · intro st1 e hInit hA
    obtain ⟨hc, -⟩ := allocArgsLoop_err g _ st [] st1 e (by simp) hA
    constructor
    · unfold Run
      rw [if_neg (by simp [hInit])]
      dsimp only
      rw [hA]
    · simpa using hc
  · intro ptrs st1 p hM hp
    unfold allocArgv
    rw [hM]
    dsimp only
    rw [if_neg hp]

/-- C4 amended witness: the null-allocator guest makes the first argument
allocation fail and Run unwinds returning that error; on gAW the argv
allocation succeeds although its pointer write is rejected. -/
theorem argument_setup_unwind_amended_w :
    (Run gNull stI [[97]] =
        ((callMalloc gNull stI 2).1, ((1 : Int), some PErr.allocFailed)) ∧
      ((callMalloc gNull stI 2).1).allocCount = stI.allocCount) ∧
    (allocArgv gAW stI [9]).2 = Except.ok 4 :=
  ⟨(argument_setup_unwind_amended gNull stI [[97]]).1 (callMalloc gNull stI 2).1
      PErr.allocFailed rfl rfl,
   (argument_setup_unwind_amended gAW stI [[97]]).2 [9] (callMalloc gAW stI 4).1 4
      rfl (by decide)⟩

/-- C8: Close is idempotent and best-effort: after any Close the instance is
no longer initialized; a second Close does not invoke the guest destroy
export again (the destroy counter is unchanged) and, as long as the engine's
instance release reports success, does not fail; a Close on a
never-initialized instance performs no destroy call; and the result of
Close is entirely independent of whether the guest destroy export traps
(replacing the destroy export's error flag changes nothing: the error is
swallowed, not propagated). -/
theorem close_idempotent_swallows {sigma : Type} (g : Guest sigma)
    (st : HState sigma) (d2 : sigma → sigma × Bool)
    (hd : ∀ s, (d2 s).1 = (g.destroyCall s).1)
    (hmc : ∀ s, (g.modClose s).2 = true) :
    ((Close g st).1).inited = false ∧
    ((Close g ((Close g st).1)).1).destroyCount = ((Close g st).1).destroyCount ∧
    (Close g ((Close g st).1)).2 = none ∧
    (st.inited = false → ((Close g st).1).destroyCount = st.destroyCount) ∧
    Close { g with destroyCall := d2 } st = Close g st := by
  have hgen : ∀ Y : HState sigma, Y.inited = false →
      Close g Y = ({ Y with guest := (g.modClose Y.guest).1 },
        if (g.modClose Y.guest).2 then none else some PErr.closeFailed) := by
    intro Y hY
    unfold Close
    rw [if_neg (by simp [hY])]
  have hfalse : ((Close g st).1).inited = false := by
    by_cases h2 : st.inited = true
    · unfold Close
      rw [if_pos h2]
    · unfold Close
      rw [if_neg h2]
      simpa using h2
  refine ⟨hfalse, ?_, ?_, ?_, ?_⟩
  · rw [hgen ((Close g st).1) hfalse]
  · rw [hgen ((Close g st).1) hfalse]
    rw [hmc]
    simp
  · intro h2
    rw [hgen st h2]
  · unfold Close callDestroy
    dsimp only
    rw [hd st.guest]

/-- C8 witness: concrete double Close on the well-behaved guest, with a
destroy export variant that reports an error. -/
theorem close_idempotent_swallows_w :
    ((Close g0 stI).1).inited = false ∧
    ((Close g0 ((Close g0 stI).1)).1).destroyCount = ((Close g0 stI).1).destroyCount ∧
    (Close g0 ((Close g0 stI).1)).2 = none ∧
    (stI.inited = false → ((Close g0 stI).1).destroyCount = stI.destroyCount) ∧
    Close { g0 with destroyCall := fun s => (s, false) } stI = Close g0 stI :=
  close_idempotent_swallows g0 stI (fun s => (s, false)) (fun _ => rfl) (fun _ => rfl)

theorem writePtr_slots {sigma : Type} (g : Guest sigma) (st : HState sigma)
    (a v : Nat) : (writePtr g st a v).slotWrites = st.slotWrites ++ [(a, u32 v)] :=
  rfl

theorem writeUint32_slots {sigma : Type} (g : Guest sigma) (st : HState sigma)
    (a v : Nat) : (writeUint32 g st a v).slotWrites = st.slotWrites ++ [(a, u32 v)] :=
  rfl

/-- C2 counterexample: on a guest whose allocator returns the null pointer
(but whose memory reads succeed), the strategy succeeds with output [1,2,3],
yet the gateway's status word is -1, not 0 as the claim requires for every
successful strategy invocation. -/
theorem gateway_status_claim_cex :
    hOk.communicate (List.replicate 1 66) true (List.replicate 1 66) =
      Except.ok [1, 2, 3] ∧
    (hostPluginCommunicate gNull hOk stI 0 1 1 0 1 100 104 108 112).2 = -1 ∧
    ((-1 : Int) ≠ 0) := by
  refine ⟨rfl, rfl, by decide⟩

/-- C2 amended: the gateway's status word is -1 when reading the program
name or the input bytes out of guest memory fails — and then the strategy is
never invoked: the result does not depend on the strategy at all; 1 when the
strategy returns an error, and if the error-buffer allocation succeeds the
error slots receive the buffer pointer and length and the output slots the
zero sentinel; 0 when the strategy succeeds and the output-buffer allocation
succeeds, with the output slots receiving pointer and length and the error
slots the zero sentinel; and -1 (again) when the strategy succeeds but the
output-buffer allocation fails. -/
theorem gateway_status_amended {sigma : Type} (g : Guest sigma) (ph : Handler)
    (st : HState sigma) (pp pl sp ip il opp olp epp elp : Nat) :
    (g.memRead st.guest pp pl = none →
      (hostPluginCommunicate g ph st pp pl sp ip il opp olp epp elp).2 = -1 ∧
      ∀ ph2, hostPluginCommunicate g ph2 st pp pl sp ip il opp olp epp elp =
        hostPluginCommunicate g ph st pp pl sp ip il opp olp epp elp) ∧
    (∀ prog, g.memRead st.guest pp pl = some prog →
      g.memRead st.guest ip il = none →
      (hostPluginCommunicate g ph st pp pl sp ip il opp olp epp elp).2 = -1 ∧
      ∀ ph2, hostPluginCommunicate g ph2 st pp pl sp ip il opp olp epp elp =
        hostPluginCommunicate g ph st pp pl sp ip il opp olp epp elp) ∧
    (∀ prog inp errMsg st1 errPtr, g.memRead st.guest pp pl = some prog →
      g.memRead st.guest ip il = some inp →
      ph.communicate prog (decide (asInt32 sp ≠ 0)) inp = Except.error errMsg →
      allocBytes g st errMsg = (st1, Except.ok errPtr) →
      (hostPluginCommunicate g ph st pp pl sp ip il opp olp epp elp).2 = 1 ∧
      ((hostPluginCommunicate g ph st pp pl sp ip il opp olp epp elp).1).slotWrites =
        st.slotWrites ++
          [(epp, u32 errPtr), (elp, u32 errMsg.length), (opp, 0), (olp, 0)]) ∧
    (∀ prog inp output st1 outPtr, g.memRead st.guest pp pl = some prog →
      g.memRead st.guest ip il = some inp →
      ph.communicate prog (decide (asInt32 sp ≠ 0)) inp = Except.ok output →
      allocBytes g st output = (st1, Except.ok outPtr) →
      (hostPluginCommunicate g ph st pp pl sp ip il opp olp epp elp).2 = 0 ∧
      ((hostPluginCommunicate g ph st pp pl sp ip il opp olp epp elp).1).slotWrites =
        st.slotWrites ++
          [(opp, u32 outPtr), (olp, u32 output.length), (epp, 0), (elp, 0)]) ∧
    (∀ prog inp output st1 e, g.memRead st.guest pp pl = some prog →
      g.memRead st.guest ip il = some inp →
      ph.communicate prog (decide (asInt32 sp ≠ 0)) inp = Except.ok output →
      allocBytes g st output = (st1, Except.error e) →
      (hostPluginCommunicate g ph st pp pl sp ip il opp olp epp elp).2 = -1) := by
  refine ⟨?_, ?_, ?_, ?_, ?_⟩
  · intro hR1
    constructor
    · unfold hostPluginCommunicate
      rw [hR1]
    · intro ph2
      unfold hostPluginCommunicate
      rw [hR1]
  · intro prog hR1 hR2
    constructor
    · unfold hostPluginCommunicate
      rw [hR1]
      dsimp only
      rw [hR2]
    · intro ph2
      unfold hostPluginCommunicate
      rw [hR1]
      dsimp only
      rw [hR2]
  · intro prog inp errMsg st1 errPtr hR1 hR2 hC hA
    obtain ⟨-, -, -, hs⟩ := allocBytes_ok hA
    have hgoal : hostPluginCommunicate g ph st pp pl sp ip il opp olp epp elp =
        (writeUint32 g (writePtr g (writeUint32 g (writePtr g st1 epp errPtr) elp
          errMsg.length) opp 0) olp 0, 1) := by
      unfold hostPluginCommunicate
      rw [hR1]
      dsimp only
      rw [hR2]
      dsimp only
      rw [hC]
      dsimp only
      rw [hA]
    rw [hgoal]
    refine ⟨rfl, ?_⟩
    simp only [writePtr_slots, writeUint32_slots, List.append_assoc, hs]
    simp [u32]
  · intro prog inp output st1 outPtr hR1 hR2 hC hA
    obtain ⟨-, -, -, hs⟩ := allocBytes_ok hA
    have hgoal : hostPluginCommunicate g ph st pp pl sp ip il opp olp epp elp =
        (writeUint32 g (writePtr g (writeUint32 g (writePtr g st1 opp outPtr) olp
          output.length) epp 0) elp 0, 0) := by
      unfold hostPluginCommunicate
      rw [hR1]
      dsimp only
      rw [hR2]
      dsimp only
      rw [hC]
      dsimp only
      rw [hA]
    rw [hgoal]
    refine ⟨rfl, ?_⟩
    simp only [writePtr_slots, writeUint32_slots, List.append_assoc, hs]
    simp [u32]
  · intro prog inp output st1 e hR1 hR2 hC hA
    unfold hostPluginCommunicate
    rw [hR1]
    dsimp only
    rw [hR2]
    dsimp only
    rw [hC]
    dsimp only
    rw [hA]

/-- C2 amended witness: on the well-behaved guest with the failing strategy,
the error-buffer allocation succeeds at pointer 8 and the gateway reports 1,
filling the error slots and zeroing the output slots. -/
theorem gateway_status_amended_w :
    (hostPluginCommunicate g0 hErr stI 0 1 1 0 1 100 104 108 112).2 = 1 ∧
    ((hostPluginCommunicate g0 hErr stI 0 1 1 0 1 100 104 108 112).1).slotWrites =
      stI.slotWrites ++
        [(108, u32 8), (112, u32 (List.length [69])), (100, 0), (104, 0)] :=
  (gateway_status_amended g0 hErr stI 0 1 1 0 1 100 104 108 112).2.2.1
    (List.replicate 1 65) (List.replicate 1 65) [69] ⟨(), true, 1, 2, [], [], 0⟩ 8
    rfl rfl rfl rfl

/-- C10: a guest-supplied slot is written only when the sandbox buffer for
it was allocated: if the output-buffer allocation fails after a successful
strategy run, the gateway returns -1 with the state of the failed allocation
and no slot written at all (the slot-write log is unchanged); if the
error-buffer allocation fails after a strategy error, the gateway still
returns 1 and zeroes exactly the two output slots, leaving the error slots
unwritten. -/
theorem gateway_unwritten_slots {sigma : Type} (g : Guest sigma) (ph : Handler)
    (st : HState sigma) (pp pl sp ip il opp olp epp elp : Nat) :
    (∀ prog inp output st1 e, g.memRead st.guest pp pl = some prog →
      g.memRead st.guest ip il = some inp →
      ph.communicate prog (decide (asInt32 sp ≠ 0)) inp = Except.ok output →
      allocBytes g st output = (st1, Except.error e) →
      hostPluginCommunicate g ph st pp pl sp ip il opp olp epp elp = (st1, -1) ∧
        st1.slotWrites = st.slotWrites) ∧
    (∀ prog inp errMsg st1 e, g.memRead st.guest pp pl = some prog →
      g.memRead st.guest ip il = some inp →
      ph.communicate prog (decide (asInt32 sp ≠ 0)) inp = Except.error errMsg →
      allocBytes g st errMsg = (st1, Except.error e) →
      (hostPluginCommunicate g ph st pp pl sp ip il opp olp epp elp).2 = 1 ∧
      ((hostPluginCommunicate g ph st pp pl sp ip il opp olp epp elp).1).slotWrites =
        st.slotWrites ++ [(opp, 0), (olp, 0)]) := by
  constructor
  · intro prog inp output st1 e hR1 hR2 hC hA
    obtain ⟨-, -, hs⟩ := allocBytes_err hA
    refine ⟨?_, hs⟩
    unfold hostPluginCommunicate
    rw [hR1]
    dsimp only
    rw [hR2]
    dsimp only
    rw [hC]
    dsimp only
    rw [hA]
  · intro prog inp errMsg st1 e hR1 hR2 hC hA
    obtain ⟨-, -, hs⟩ := allocBytes_err hA
    have hgoal : hostPluginCommunicate g ph st pp pl sp ip il opp olp epp elp =
        (writeUint32 g (writePtr g st1 opp 0) olp 0, 1) := by
      unfold hostPluginCommunicate
      rw [hR1]
      dsimp only
      rw [hR2]
      dsimp only
      rw [hC]
      dsimp only
      rw [hA]
    rw [hgoal]
    refine ⟨rfl, ?_⟩
    simp only [writePtr_slots, writeUint32_slots, List.append_assoc, hs]
    simp [u32]

/-- C10 witness: the null-allocator guest with the succeeding strategy gives
-1 and an unchanged slot log; with the failing strategy it gives 1 and
exactly the two zeroed output slots. -/
theorem gateway_unwritten_slots_w :
    (hostPluginCommunicate gNull hOk stI 0 1 1 0 1 100 104 108 112 =
        ((callMalloc gNull stI 3).1, -1) ∧
      ((callMalloc gNull stI 3).1).slotWrites = stI.slotWrites) ∧
    ((hostPluginCommunicate gNull hErr stI 0 1 1 0 1 100 104 108 112).2 = 1 ∧
      ((hostPluginCommunicate gNull hErr stI 0 1 1 0 1 100 104 108 112).1).slotWrites =
        stI.slotWrites ++ [(100, 0), (104, 0)]) :=
  ⟨(gateway_unwritten_slots gNull hOk stI 0 1 1 0 1 100 104 108 112).1
      (List.replicate 1 66) (List.replicate 1 66) [1, 2, 3]
      (callMalloc gNull stI 3).1 PErr.allocFailed rfl rfl rfl rfl,
   (gateway_unwritten_slots gNull hErr stI 0 1 1 0 1 100 104 108 112).2
      (List.replicate 1 66) (List.replicate 1 66) [69]
      (callMalloc gNull stI 1).1 PErr.allocFailed rfl rfl rfl rfl⟩
